import Mathlib

/-
Verification development for the minecraft-ai-builder repository.

The repository ships a web layer (a Next.js POST /api/build route handler and
a chat interface component) and documents, in its specification, a core build
pipeline (Blueprint Ingestor, Command Compiler, Dispatch Scheduler, Build
Orchestrator) that lives in a Python backend not present in the source tree.

Part 1 embeds the web layer directly from the source.
Part 2 models the core pipeline from the specification (each such definition
is marked "Modelled from the spec:").
Part 3 proves the claimed properties.
-/

/- ================================================================
Part 1a. The POST /api/build route handler (app/api/build/route.ts).
================================================================ -/

/-- Parsed JSON body of a request to POST /api/build.  The handler reads only
the `description` field; the optional `anchor` field models a caller that does
or does not include an anchor triple in the JSON body (the handler never reads
it).  A `description` that is absent or of a falsy non-string JSON type is
modelled as `none`; a present string is `some`. -/
structure RequestBody where
  description : Option String
  anchor : Option (Int × Int × Int)

/-- Backend (Python builder) HTTP response as the route observes it: `ok` and
`status` from the fetch response, `detail` the optional `detail` field of a
non-ok JSON body, and `body` the parsed JSON result of an ok response.  The
result payload type is a parameter `β`. -/
structure BackendResp (β : Type) where
  ok : Bool
  status : Nat
  detail : Option String
  body : β

/-- Response produced by the route handler: `errorResp s m` models
`NextResponse.json({ error: m }, { status: s })` and `okResp b` models
`NextResponse.json(b)` (HTTP 200). -/
inductive RouteResult (β : Type) where
  | errorResp (status : Nat) (errMsg : String)
  | okResp (body : β)

/-- The POST handler of app/api/build/route.ts, with the network call to the
Python backend abstracted as `backend : String → Except Unit (BackendResp β)`
(`Except.error ()` models the fetch throwing, caught by the try/catch of the handler).  The second component of the result is the list of description
strings forwarded to the backend, in order, so that whether the backend is
called is part of the observable behaviour of the function. -/
def POSTtrace {β : Type} (backend : String → Except Unit (BackendResp β))
    (req : RequestBody) : RouteResult β × List String :=
  match req.description with
  | none => (.errorResp 400 "Description is required", [])
  | some d =>
    if d = "" then (.errorResp 400 "Description is required", [])
    else
      match backend d with
      | .error _ => (.errorResp 500 "Failed to connect to build server", [d])
      | .ok resp =>
        if resp.ok then (.okResp resp.body, [d])
        else (.errorResp resp.status (resp.detail.getD "Build failed"), [d])

/-- The HTTP response of the POST handler alone. -/
def POST {β : Type} (backend : String → Except Unit (BackendResp β))
    (req : RequestBody) : RouteResult β :=
  (POSTtrace backend req).1

/-- Modelled from the spec: the success payload of the builder backend — the
BuildResult fields the chat caller reads (`result.blocks_placed` and
`result.execution_time` in ChatInterface.handleSend).  The backend itself is
not in the source tree; elapsed time, a float in the JSON, is modelled as a
rational. -/
structure BuildResultJson where
  blocks_placed : Nat
  execution_time : ℚ
deriving DecidableEq

/- ================================================================
Part 1b. The chat interface (components/chat/ChatInterface.tsx).
================================================================ -/

/-- Message sender in the chat transcript. -/
inductive Sender where
  | steve
  | user
deriving DecidableEq

/-- One chat message; ids, timestamps, moods and the feedback flags are
presentational and elided. -/
structure ChatMessage where
  sender : Sender
  content : String
deriving DecidableEq

/-- The ChatInterface component state touched by handleSend. -/
structure ChatState where
  messages : List ChatMessage
  input : String
  isBuilding : Bool
  buildProgress : ℚ
deriving DecidableEq

/-- Outcome of the `fetch("/api/build", ...)` call inside handleSend:
an ok response with parsed result, a non-ok response with the optional
`error` field of its JSON body, or the fetch throwing. -/
inductive BuildFetchOutcome where
  | ok (result : BuildResultJson)
  | httpError (errMsg : Option String)
  | threw
deriving DecidableEq

/-- Stats line appended to the completion message; the source formats the
time with toFixed(1), abstracted here to toString. -/
def statsText (r : BuildResultJson) : String :=
  "\n\n📊 Blocks placed: " ++ toString r.blocks_placed ++
    "\n⏱️ Time: " ++ toString r.execution_time ++ " seconds"

/-- Error message shown for a non-ok HTTP response. -/
def httpErrorText (e : Option String) : String :=
  "Oops! Something went wrong... 😅\n\n" ++
    e.getD "Could not connect to the Minecraft server. Make sure the server is running!"

/-- Error message shown when the fetch throws. -/
def connectErrorText : String :=
  "Hmm, I can\x27t reach the build server right now. Make sure the Python API is running! 🔧"

/-- Executable model of JS String.prototype.trim, the
`input.trim()` of the source: whitespace removed from both ends. -/
def trimText (s : String) : String :=
  ⟨((s.data.dropWhile Char.isWhitespace).reverse.dropWhile Char.isWhitespace).reverse⟩

/-- Everything one call of handleSend does, observably: the final component
state, the descriptions POSTed to /api/build, and the sequence of values
passed to setBuildProgress outside the interval callback (the interval ticks
themselves are `progressTick` below). -/
structure SendEffect where
  state : ChatState
  requests : List String
  progressSets : List ℚ
deriving DecidableEq

/-- handleSend from ChatInterface.tsx.  `buildingMsg` and `completeMsg` are
the randomly chosen lines from STEVE_BUILDING_MESSAGES and
STEVE_COMPLETE_MESSAGES (Math.random is a parameter), `o` the outcome of the
fetch.  The guard `if (!input.trim() || isBuilding) return;` is the first
line of the source function; on the other paths the source appends the user
message and a building message, clears the input, runs the fetch, appends the
result message, and in `finally` sets isBuilding to false and the progress
back to 0. -/
def handleSend (buildingMsg completeMsg : String) (o : BuildFetchOutcome)
    (st : ChatState) : SendEffect :=
  if trimText st.input = "" ∨ st.isBuilding = true then ⟨st, [], []⟩
  else
    let desc := st.input
    let msgs1 := st.messages ++ [⟨Sender.user, desc⟩, ⟨Sender.steve, buildingMsg⟩]
    match o with
    | .ok r =>
      ⟨⟨msgs1 ++ [⟨Sender.steve, completeMsg ++ statsText r⟩], "", false, 0⟩,
        [desc], [0, 100, 0]⟩
    | .httpError e =>
      ⟨⟨msgs1 ++ [⟨Sender.steve, httpErrorText e⟩], "", false, 0⟩,
        [desc], [0, 100, 0]⟩
    | .threw =>
      ⟨⟨msgs1 ++ [⟨Sender.steve, connectErrorText⟩], "", false, 0⟩,
        [desc], [0, 0, 0]⟩

/-- The disabled condition of the Build button,
`disabled={!input.trim() || isBuilding}`. -/
def buildButtonDisabled (st : ChatState) : Bool :=
  (trimText st.input == "") || st.isBuilding

/-- One tick of the progress interval,
`prev >= 90 ? 90 : prev + Math.random() * 10 + 3`, with `r` the value of
Math.random(), so 0 ≤ r < 1.  JS numbers are modelled as rationals. -/
def progressTick (p r : ℚ) : ℚ :=
  if 90 ≤ p then 90 else p + (10 * r + 3)

/-- The progress percentage as rendered,
`Math.min(buildProgress, 100)` (both the bar width and the rounded label
clamp this way). -/
def renderedPercent (p : ℚ) : ℚ :=
  min p 100

/- ================================================================
Part 2. The core build pipeline, modelled from the spec.
The Python backend implementing it is not in the source tree; every
definition below follows the words of the specification (sections 3, 4, 7, 8
of the spec and the command shapes in ARCHITECTURE.md).
================================================================ -/

/-- Modelled from the spec: a relative or absolute integer coordinate triple
(section 3; positions are relative-to-anchor integer triples). -/
structure Pos3 where
  x : Int
  y : Int
  z : Int
deriving DecidableEq

/-- Modelled from the spec: the Anchor, a 3D integer coordinate designating
the origin of a build (section 3). -/
abbrev Anchor := Pos3

/-- Modelled from the spec: the closed enumeration of recognized facings
(section 4.2 step 5). -/
inductive Facing where
  | north
  | south
  | east
  | west
  | up
  | down
deriving DecidableEq

/-- Modelled from the spec: bounding dimensions and default materials of a
record named `structure` of a Blueprint (section 3). -/
structure StructureInfo where
  width : Int
  depth : Int
  height : Int
  base_material : String
  roof_material : String
deriving DecidableEq

/-- Modelled from the spec: an Element, the tagged union of
region / point / point_set construction units (section 3).  Every variant
carries a material token, anchor-relative position data and a phase tag. -/
inductive Element where
  | region (material : String) (position : Pos3) (dimensions : Pos3) (phase : String)
  | point (material : String) (position : Pos3) (facing : Option Facing) (phase : String)
  | point_set (material : String) (positions : List Pos3) (facing : Option Facing) (phase : String)
deriving DecidableEq

/-- Phase tag of an element. -/
def Element.phase : Element → String
  | .region _ _ _ ph => ph
  | .point _ _ _ ph => ph
  | .point_set _ _ _ ph => ph

/-- Modelled from the spec: a Blueprint — structure record, ordered element
sequence, and ordered phase-tag sequence `build_order` (section 3).
`structure` is a Lean keyword, so the field is named `struct`. -/
structure Blueprint where
  struct : StructureInfo
  elements : List Element
  build_order : List String
deriving DecidableEq

/-- Modelled from the spec: the IngestError taxonomy (section 4.1).  The
empty-point_set violation has no name in the spec and is called
`EmptyPointSet` here. -/
inductive IngestError where
  | InvalidDimensions
  | UnknownPhase
  | EmptyPointSet
deriving DecidableEq

/-- Does some element reference a phase tag absent from build_order? -/
def hasUnknownPhase (bp : Blueprint) : Bool :=
  bp.elements.any fun e => !(bp.build_order.contains e.phase)

/-- Does some point_set element have an empty position list? -/
def hasEmptyPointSet (bp : Blueprint) : Bool :=
  bp.elements.any fun e =>
    match e with
    | .point_set _ ps _ _ => ps.isEmpty
    | _ => false

/-- Modelled from the spec: `ingest(raw) -> Blueprint | IngestError`
(section 4.1) — a pure validation of the already-JSON-parsed raw blueprint.
The spec fixes no precedence among the three validations when several are
violated at once; this model checks the phase-tag invariant (the invariant
singled out in section 3) first, then dimensions, then point_set
non-emptiness. -/
def ingest (raw : Blueprint) : Except IngestError Blueprint :=
  if hasUnknownPhase raw then .error .UnknownPhase
  else if raw.struct.width ≤ 0 ∨ raw.struct.depth ≤ 0 ∨ raw.struct.height ≤ 0 then
    .error .InvalidDimensions
  else if hasEmptyPointSet raw then .error .EmptyPointSet
  else .ok raw

/-- Modelled from the spec: a CompiledOperation — FillOp (two opposite
absolute corners + material) or SetOp (one absolute coordinate + material +
optional orientation) (section 3). -/
inductive CompiledOperation where
  | FillOp (corner1 corner2 : Pos3) (material : String)
  | SetOp (coord : Pos3) (material : String) (facing : Option Facing)
deriving DecidableEq

/-- Modelled from the spec: the CompileError taxonomy (section 4.2). -/
inductive CompileError where
  | InvalidOperation
  | CommandTooLarge
deriving DecidableEq

/-- Anchor + relative offset, computed only at compile time (section 3). -/
def resolve (a : Anchor) (p : Pos3) : Pos3 :=
  ⟨a.x + p.x, a.y + p.y, a.z + p.z⟩

/-- Far corner of a region: anchor + position + dimensions - 1 componentwise
(matches the section 8 scenario of the spec, where position (0,0,0), dimensions
(10,4,10) and anchor (0,64,0) give corners (0,64,0) and (9,67,9)). -/
def fillCorner (a : Anchor) (pos dims : Pos3) : Pos3 :=
  ⟨a.x + pos.x + dims.x - 1, a.y + pos.y + dims.y - 1, a.z + pos.z + dims.z - 1⟩

/-- Modelled from the spec: lowering of one element (section 4.2 steps 2-4).
A region lowers to one FillOp; a point to one SetOp; a point_set of N
positions to N SetOps in list order.  The spec leaves the within-phase
region-merge algorithm unspecified (its section 9 flags this as the one
genuine ambiguity) and merging is an optimization of FillOp emission only,
so this model emits one FillOp per region. -/
def lowerElement (a : Anchor) : Element → List CompiledOperation
  | .region m pos dims _ => [.FillOp (resolve a pos) (fillCorner a pos dims) m]
  | .point m pos f _ => [.SetOp (resolve a pos) m f]
  | .point_set m ps f _ => ps.map fun p => .SetOp (resolve a p) m f

/-- Modelled from the spec: the configured legal coordinate range
(section 4.2 step 5), set to the world bound of the target game. -/
def coordMin : Int := -30000000

/-- Upper bound of the legal coordinate range. -/
def coordMax : Int := 30000000

/-- Is a coordinate triple inside the legal range? -/
def posInRange (p : Pos3) : Bool :=
  decide (coordMin ≤ p.x ∧ p.x ≤ coordMax ∧ coordMin ≤ p.y ∧ p.y ≤ coordMax ∧
    coordMin ≤ p.z ∧ p.z ≤ coordMax)

/-- Syntax validity of one operation (section 4.2 step 5): absolute
coordinates in range and material identifier non-empty.  Orientation
validity is enforced by the closed `Facing` type itself. -/
def opSyntaxOk : CompiledOperation → Bool
  | .FillOp c1 c2 m => posInRange c1 && posInRange c2 && !(m == "")
  | .SetOp c m _ => posInRange c && !(m == "")

/-- Coordinate triple rendered in command syntax. -/
def posText (p : Pos3) : String :=
  toString p.x ++ " " ++ toString p.y ++ " " ++ toString p.z

/-- Orientation token of a facing. -/
def facingText : Facing → String
  | .north => "north"
  | .south => "south"
  | .east => "east"
  | .west => "west"
  | .up => "up"
  | .down => "down"

/-- Serialized command text of an operation — the two command shapes of the
remote channel (spec section 6 and the ARCHITECTURE.md examples
`/fill x y z x y z material` and `/setblock x y z material[facing=f]`). -/
def serializeOp : CompiledOperation → String
  | .FillOp c1 c2 m => "/fill " ++ posText c1 ++ " " ++ posText c2 ++ " " ++ m
  | .SetOp c m f =>
    "/setblock " ++ posText c ++ " " ++ m ++
      (match f with
       | none => ""
       | some fc => "[facing=" ++ facingText fc ++ "]")

/-- Modelled from the spec: the hard upper bound on the serialized length of
a single command (section 4.2 step 6; ARCHITECTURE.md gives ~32k
characters). -/
def maxCommandLen : Nat := 32000

/-- Validation of one operation: syntax first (InvalidOperation), then the
serialized-size ceiling (CommandTooLarge) (section 4.2 steps 5-6). -/
def checkOp (op : CompiledOperation) : Except CompileError Unit :=
  if opSyntaxOk op then
    if (serializeOp op).length ≤ maxCommandLen then .ok () else .error .CommandTooLarge
  else .error .InvalidOperation

/-- Validation of an operation list, failing on the first bad operation. -/
def checkOps : List CompiledOperation → Except CompileError Unit
  | [] => .ok ()
  | op :: rest =>
    match checkOp op with
    | .error e => .error e
    | .ok _ => checkOps rest

/-- All operations of one phase, lowering the elements of the phase in Blueprint
insertion order (section 4.2 step 1: group elements by phase tag, iterating
build_order in sequence). -/
def phaseOps (a : Anchor) (elems : List Element) (ph : String) : List CompiledOperation :=
  ((elems.filter fun e => e.phase == ph).map (lowerElement a)).flatten

/-- The compiled operation sequence: phases in build_order order, each
operations of each phase in insertion order. -/
def compileOps (bp : Blueprint) (a : Anchor) : List CompiledOperation :=
  (bp.build_order.map (phaseOps a bp.elements)).flatten

/-- Modelled from the spec:
`compile(Blueprint, Anchor) -> ordered sequence of CompiledOperation |
CompileError` (section 4.2) — lower all phases in order, then validate every
operation. -/
def compile (bp : Blueprint) (a : Anchor) : Except CompileError (List CompiledOperation) :=
  match checkOps (compileOps bp a) with
  | .error e => .error e
  | .ok _ => .ok (compileOps bp a)

/-- The compiled sequence with each operation tagged by the index of its
phase in build_order; used to state the phase-ordering property.
`tagPhases a elems k l` tags the phases of `l` with indices k, k+1, .... -/
def tagPhases (a : Anchor) (elems : List Element) : Nat → List String → List (Nat × CompiledOperation)
  | _, [] => []
  | k, ph :: rest =>
    (phaseOps a elems ph).map (fun op => (k, op)) ++ tagPhases a elems (k + 1) rest

/-- Phase-tagged compiled output of a blueprint. -/
def phaseTagged (bp : Blueprint) (a : Anchor) : List (Nat × CompiledOperation) :=
  tagPhases a bp.elements 0 bp.build_order

/- ================================================================
Part 2b. Dispatch Scheduler and Build Orchestrator, modelled from the spec.
================================================================ -/

/-- Modelled from the spec: the per-operation dispatch status enumeration
(section 3, DispatchRecord). -/
inductive Status where
  | pending
  | sent
  | acknowledged
  | failed
deriving DecidableEq, BEq

/-- Outcome of one send attempt on the remote channel: a textual
acknowledgement, a transport-level failure (connection reset, timeout), or a
protocol-level rejection (the remote echoes an explicit error)
(spec sections 4.3 and 6). -/
inductive SendOutcome where
  | ack
  | transportFail
  | protocolReject
deriving DecidableEq

/-- Modelled from the spec: a DispatchRecord — operation reference, final
status, attempt count, last error (section 3). -/
structure DispatchRecord where
  op : CompiledOperation
  status : Status
  attempts : Nat
  lastError : Option String
deriving DecidableEq

/-- Modelled from the spec: the fixed retry bound — up to 3 retries after
the first attempt of an operation (section 4.3: "retried up to a fixed
bound (recommend 3 attempts)"). -/
def maxRetries : Nat := 3

/-- Modelled from the spec: the per-operation retry loop (section 4.3).
`net k` is the channel outcome for the (k+1)-th attempt; the result is the
final status, the number of attempts consumed, and the last error text.
An acknowledgement is terminal; a protocol rejection is terminal with no
retry; a transport failure is retried while retries remain.  The exponential
backoff delays are wall-clock pacing and are not part of the state model. -/
def retryLoop (net : Nat → SendOutcome) : Nat → Nat → Status × Nat × Option String
  | k, 0 =>
    match net k with
    | .ack => (.acknowledged, k + 1, none)
    | .protocolReject => (.failed, k + 1, some "protocol rejection")
    | .transportFail => (.failed, k + 1, some "transport failure")
  | k, r + 1 =>
    match net k with
    | .ack => (.acknowledged, k + 1, none)
    | .protocolReject => (.failed, k + 1, some "protocol rejection")
    | .transportFail => retryLoop net (k + 1) r

/-- Dispatch of one operation: run the retry loop from attempt 0 with the
full retry budget and record the outcome. -/
def dispatchOp (net : Nat → SendOutcome) (op : CompiledOperation) : DispatchRecord :=
  match retryLoop net 0 maxRetries with
  | (st, n, err) => ⟨op, st, n, err⟩

/-- Modelled from the spec: the Dispatch Scheduler (section 4.3) — operations
are sent strictly in compiled order on a serial channel; `conn op` gives the
per-attempt channel outcomes for operation `op`.  Pacing delays and
connection-level death are timing behaviour outside the claims and this
state model. -/
def dispatch (conn : CompiledOperation → Nat → SendOutcome)
    (ops : List CompiledOperation) : List DispatchRecord :=
  ops.map fun op => dispatchOp (conn op) op

/-- Modelled from the spec: the OrchestrationError taxonomy (section 7):
oracle failure, or a wrapped ingest or compile error. -/
inductive OrchestrationError where
  | AnalysisFailed
  | IngestFailed (e : IngestError)
  | CompileFailed (e : CompileError)
deriving DecidableEq

/-- Modelled from the spec: the BuildResult aggregate (section 3) — totals,
acknowledged/failed counts and the failed records.  Elapsed wall-clock time
is real time and is not part of the state model. -/
structure BuildResult where
  elements_processed : Nat
  operations_compiled : Nat
  acknowledged_count : Nat
  failed_count : Nat
  failed_records : List DispatchRecord
deriving DecidableEq

/-- Modelled from the spec: the Build Orchestrator
`build(description, anchor) -> BuildResult | OrchestrationError`
(section 4.4): call the external oracle, ingest, compile, dispatch, and
assemble the aggregate.  The second component of the result is the list of
operations handed to the Dispatch Scheduler, so "nothing is dispatched" is
observable; it is empty exactly when the pipeline fails before dispatch. -/
def buildTrace (oracle : String → Except Unit Blueprint)
    (conn : CompiledOperation → Nat → SendOutcome)
    (description : String) (anchor : Anchor) :
    Except OrchestrationError BuildResult × List CompiledOperation :=
  match oracle description with
  | .error _ => (.error .AnalysisFailed, [])
  | .ok raw =>
    match ingest raw with
    | .error e => (.error (.IngestFailed e), [])
    | .ok bp =>
      match compile bp anchor with
      | .error e => (.error (.CompileFailed e), [])
      | .ok ops =>
        let records := dispatch conn ops
        (.ok ⟨bp.elements.length, ops.length,
          (records.filter fun r => r.status == Status.acknowledged).length,
          (records.filter fun r => r.status == Status.failed).length,
          records.filter fun r => r.status == Status.failed⟩, ops)

lemma pairwise_map_const (k : Nat) (l : List CompiledOperation) :
    (l.map fun op => (k, op)).Pairwise (fun s t : Nat × CompiledOperation => s.1 ≤ t.1) := by
  induction l with
  | nil => simp
  | cons op rest ih =>
    simp only [List.map_cons, List.pairwise_cons]
    refine ⟨?_, ih⟩
    intro y hy
    rcases List.mem_map.mp hy with ⟨op2, _, rfl⟩
    exact le_refl k

lemma tagPhases_fst_ge (a : Anchor) (elems : List Element) :
    ∀ (l : List String) (n : Nat), ∀ t ∈ tagPhases a elems n l, n ≤ t.1 := by
  intro l
  induction l with
  | nil => intro n t ht; simp [tagPhases] at ht
  | cons ph rest ih =>
    intro n t ht
    simp only [tagPhases, List.mem_append] at ht
    rcases ht with h | h
    · rcases List.mem_map.mp h with ⟨op, _, rfl⟩; exact le_refl n
    · exact Nat.le_of_succ_le (ih (n + 1) t h)

lemma tagPhases_pairwise (a : Anchor) (elems : List Element) :
    ∀ (l : List String) (n : Nat),
      (tagPhases a elems n l).Pairwise (fun s t => s.1 ≤ t.1) := by
  intro l
  induction l with
  | nil => intro n; simp [tagPhases]
  | cons ph rest ih =>
    intro n
    simp only [tagPhases]
    rw [List.pairwise_append]
    refine ⟨pairwise_map_const n _, ih (n + 1), ?_⟩
    intro s hs t ht
    rcases List.mem_map.mp hs with ⟨op, _, rfl⟩
    exact Nat.le_of_succ_le (tagPhases_fst_ge a elems rest (n + 1) t ht)

lemma tagPhases_map_snd (a : Anchor) (elems : List Element) :
    ∀ (l : List String) (n : Nat),
      (tagPhases a elems n l).map Prod.snd = (l.map (phaseOps a elems)).flatten := by
  intro l
  induction l with
  | nil => intro n; simp [tagPhases]
  | cons ph rest ih =>
    intro n
    simp [tagPhases, List.map_append, List.map_map, ih (n + 1), Function.comp]

lemma filter_map_const_self (k : Nat) (l : List CompiledOperation) :
    ((l.map fun op => (k, op)).filter fun t => t.1 == k) = l.map fun op => (k, op) := by
  induction l with
  | nil => simp
  | cons op rest ih => simp_all

lemma filter_map_const_ne (k m : Nat) (h : m ≠ k) (l : List CompiledOperation) :
    ((l.map fun op => (m, op)).filter fun t => t.1 == k) = [] := by
  induction l with
  | nil => simp
  | cons op rest ih => simp_all

lemma filter_tagPhases_lt (a : Anchor) (elems : List Element) (l : List String)
    (n k : Nat) (hk : k < n) :
    ((tagPhases a elems n l).filter fun t => t.1 == k) = [] := by
  rw [List.filter_eq_nil_iff]
  intro t ht
  have hge := tagPhases_fst_ge a elems l n t ht
  simp only [beq_iff_eq]
  omega

lemma tagPhases_filter_get (a : Anchor) (elems : List Element) :
    ∀ (l : List String) (n k : Nat) (ph : String),
      l.get? k = some ph →
      ((tagPhases a elems n l).filter fun t => t.1 == n + k).map Prod.snd =
        phaseOps a elems ph := by
  intro l
  induction l with
  | nil => intro n k ph h; simp at h
  | cons ph0 rest ih =>
    intro n k ph h
    cases k with
    | zero =>
      simp only [List.get?_cons_zero, Option.some.injEq] at h
      subst h
      simp only [tagPhases, List.filter_append, Nat.add_zero]
      rw [filter_map_const_self, filter_tagPhases_lt a elems rest (n + 1) n (by omega)]
      simp [List.map_map, Function.comp]
    | succ k' =>
      simp only [List.get?_cons_succ] at h
      simp only [tagPhases, List.filter_append]
      rw [filter_map_const_ne (n + (k' + 1)) n (by omega)]
      have heq : n + (k' + 1) = (n + 1) + k' := by omega
      rw [heq]
      simpa using ih (n + 1) k' ph h

lemma compile_ok_eq (bp : Blueprint) (a : Anchor) (ops : List CompiledOperation)
    (h : compile bp a = Except.ok ops) : ops = compileOps bp a := by
  unfold compile at h
  split at h
  · exact Except.noConfusion h
  · exact (Except.ok.inj h).symm

/- ================================================================
Part 2c. Concrete fixtures (the section 8 scenarios of the spec and concrete
request/backend instances) used by witnesses and counterexamples.
================================================================ -/

/-- The section 8 scenario element of the spec:
region(oak_planks, pos (0,0,0), dims (10,4,10), phase "walls"). -/
def scenarioElement : Element :=
  Element.region "oak_planks" ⟨0, 0, 0⟩ ⟨10, 4, 10⟩ "walls"

/-- The section 8 scenario blueprint of the spec: structure 10x10x4 oak base,
one walls region, build_order = ["walls"]. -/
def scenarioBlueprint : Blueprint :=
  ⟨⟨10, 10, 4, "oak_planks", "dark_oak_stairs"⟩, [scenarioElement], ["walls"]⟩

/-- The section 8 scenario anchor (0,64,0) of the spec. -/
def scenarioAnchor : Anchor := ⟨0, 64, 0⟩

/-- The expected compiled output of the scenario: one FillOp from absolute
(0,64,0) to (9,67,9) with material oak_planks. -/
def scenarioOp : CompiledOperation :=
  CompiledOperation.FillOp ⟨0, 64, 0⟩ ⟨9, 67, 9⟩ "oak_planks"

/-- The second section 8 scenario of the spec: an element references phase tag
"roof", absent from build_order = ["walls"]. -/
def badPhaseBlueprint : Blueprint :=
  ⟨⟨10, 10, 4, "oak_planks", "dark_oak_stairs"⟩,
    [Element.region "oak_planks" ⟨0, 0, 0⟩ ⟨10, 4, 10⟩ "roof"], ["walls"]⟩

/-- A blueprint with non-positive width, rejected by ingestion. -/
def badDimsBlueprint : Blueprint :=
  ⟨⟨0, 10, 4, "oak_planks", "dark_oak_stairs"⟩, [], ["walls"]⟩

/-- An oracle that always returns `badDimsBlueprint`. -/
def oracleBadDims : String → Except Unit Blueprint :=
  fun _ => .ok badDimsBlueprint

/-- A connection that acknowledges every attempt of every operation. -/
def connAllAck : CompiledOperation → Nat → SendOutcome :=
  fun _ _ => SendOutcome.ack

/-- A channel trace that fails at the transport level on attempts 1-3 and
acknowledges from attempt 4 on. -/
def net3fail : Nat → SendOutcome :=
  fun k => if k < 3 then SendOutcome.transportFail else SendOutcome.ack

/-- A backend that answers every description with ok, status 200 and the
result `{blocks_placed := 10, execution_time := 5}`. -/
def backendOkConst : String → Except Unit (BackendResp BuildResultJson) :=
  fun _ => .ok ⟨true, 200, none, ⟨10, 5⟩⟩

/-- A request body that carries a description but no anchor. -/
def reqNoAnchor : RequestBody := ⟨some "a small cabin", none⟩

/-- A request body that carries both a description and an anchor triple. -/
def reqWithAnchor : RequestBody := ⟨some "a small cabin", some (0, 64, 0)⟩

/- ================================================================
Part 3. The claimed properties.
================================================================ -/

/-- C1 counterexample: a successful call to the POST /api/build handler whose
request body supplies a description but no anchor — the handler never reads
an anchor, so the claim that every successful call supplies both description
and anchor fails at this input. -/
theorem c1_counterexample :
    (POSTtrace backendOkConst reqNoAnchor).1 = RouteResult.okResp ⟨10, 5⟩ ∧
      reqNoAnchor.anchor = none :=
  ⟨rfl, rfl⟩

/-- C1 (amended): for every successful call to the POST /api/build handler,
the request supplies a present non-empty description — no anchor is required
or read — and the response body is exactly the result of the builder backend,
which carries the blocks_placed and elapsed-time fields the caller
displays. -/
theorem c1_build_api_amended (backend : String → Except Unit (BackendResp BuildResultJson))
    (req : RequestBody) (b : BuildResultJson)
    (h : (POSTtrace backend req).1 = RouteResult.okResp b) :
    ∃ d resp, req.description = some d ∧ d ≠ "" ∧
      backend d = Except.ok resp ∧ resp.ok = true ∧ b = resp.body := by
  obtain ⟨desc, anc⟩ := req
  cases desc with
  | none => simp [POSTtrace] at h
  | some d =>
    simp only [POSTtrace] at h
    by_cases hd : d = ""
    · rw [if_pos hd] at h; simp at h
    · rw [if_neg hd] at h
      cases hb : backend d with
      | error u => rw [hb] at h; simp at h
      | ok resp =>
        rw [hb] at h
        by_cases hok : resp.ok = true
        · simp only [hok, if_true] at h
          exact ⟨d, resp, rfl, hd, hb, hok, (RouteResult.okResp.inj h).symm⟩
        · simp only [eq_false_of_ne_true hok, if_false] at h
          simp at h

/-- C1 witness: the amended statement at a concrete backend and request. -/
theorem c1_build_api_witness :
    ∃ d resp, reqWithAnchor.description = some d ∧ d ≠ "" ∧
      backendOkConst d = Except.ok resp ∧ resp.ok = true ∧
      (⟨10, 5⟩ : BuildResultJson) = resp.body :=
  c1_build_api_amended backendOkConst reqWithAnchor ⟨10, 5⟩ rfl

/-- C2: for every request with a present non-empty description, the route
forwards exactly that description to the backend; on an ok backend response
it relays the backend JSON result unchanged, and on a non-ok response it
relays the backend status code and its error detail, falling back to
"Build failed". -/
theorem c2_route_relays {β : Type} (backend : String → Except Unit (BackendResp β))
    (req : RequestBody) (d : String)
    (hdesc : req.description = some d) (hne : d ≠ "") :
    (POSTtrace backend req).2 = [d] ∧
    (∀ resp, backend d = Except.ok resp → resp.ok = true →
      (POSTtrace backend req).1 = RouteResult.okResp resp.body) ∧
    (∀ resp, backend d = Except.ok resp → resp.ok = false →
      (POSTtrace backend req).1 =
        RouteResult.errorResp resp.status (resp.detail.getD "Build failed")) := by
  obtain ⟨desc, anc⟩ := req
  simp only at hdesc
  subst hdesc
  refine ⟨?_, ?_, ?_⟩
  · simp only [POSTtrace]
    rw [if_neg hne]
    cases hb : backend d with
    | error u => rfl
    | ok resp =>
      by_cases hok : resp.ok = true
      · simp [hok]
      · simp [eq_false_of_ne_true hok]
  · intro resp hb hok
    simp [POSTtrace, hne, hb, hok]
  · intro resp hb hok
    simp [POSTtrace, hne, hb, hok]

/-- C2 witness: the relaying statement at a concrete backend and request. -/
theorem c2_route_relays_witness :
    (POSTtrace backendOkConst reqNoAnchor).2 = ["a small cabin"] :=
  (c2_route_relays backendOkConst reqNoAnchor "a small cabin" rfl (by decide)).1

/-- C8: for every request body whose description is absent or falsy, the
POST /api/build handler returns 400 with error "Description is required" and
issues no backend call (the forwarded-description trace is empty). -/
theorem c8_missing_description {β : Type} (backend : String → Except Unit (BackendResp β))
    (req : RequestBody) (h : req.description = none ∨ req.description = some "") :
    POSTtrace backend req = (RouteResult.errorResp 400 "Description is required", []) := by
  obtain ⟨desc, anc⟩ := req
  rcases h with h | h <;> simp only at h <;> subst h <;> simp [POSTtrace]

/-- C8 witness: the missing-description guard at a concrete request. -/
theorem c8_missing_description_witness :
    POSTtrace backendOkConst ⟨none, none⟩ =
      (RouteResult.errorResp 400 "Description is required", []) :=
  c8_missing_description backendOkConst ⟨none, none⟩ (Or.inl rfl)

/-- C9: handleSend returns immediately — no message appended, no request
issued, no progress write — whenever the input is empty after trimming or a
build is in flight, and the Build button is disabled under exactly those two
conditions. -/
theorem c9_single_inflight (bm cm : String) (o : BuildFetchOutcome) (st : ChatState) :
    ((trimText st.input = "" ∨ st.isBuilding = true) →
      handleSend bm cm o st = ⟨st, [], []⟩) ∧
    (buildButtonDisabled st = true ↔ (trimText st.input = "" ∨ st.isBuilding = true)) := by
  constructor
  · intro h
    simp only [handleSend]
    rw [if_pos h]
  · simp [buildButtonDisabled, Bool.or_eq_true, beq_iff_eq]

/-- C9 witness: a concrete state with a build in flight, where handleSend
does nothing. -/
theorem c9_single_inflight_witness :
    handleSend "a" "b" BuildFetchOutcome.threw ⟨[], "build a castle", true, 0⟩ =
      ⟨⟨[], "build a castle", true, 0⟩, [], []⟩ :=
  (c9_single_inflight "a" "b" BuildFetchOutcome.threw ⟨[], "build a castle", true, 0⟩).1
    (Or.inr rfl)

/-- C10 counterexample: one interval tick from internal progress 89 with
Math.random() = 0.9 yields 101, above 90, so the updater can raise the
internal value above 90 before the response arrives. -/
theorem c10_counterexample :
    (0 : ℚ) ≤ 9 / 10 ∧ (9 / 10 : ℚ) < 1 ∧ 90 < progressTick 89 (9 / 10) := by
  norm_num [progressTick]

/-- C10 (amended): the rendered percentage is always at most 100; a tick at
progress at least 90 holds it at exactly 90, while a tick from below 90
strictly increases progress and stays below 103 (it may exceed 90); and when
handleSend actually runs a build, the final progress is 0 and 100 is written
exactly when a response (ok or error) arrived rather than the fetch
throwing. -/
theorem c10_progress_amended (p r : ℚ) (bm cm : String) (o : BuildFetchOutcome)
    (st : ChatState) (hr0 : 0 ≤ r) (hr1 : r < 1)
    (hin : trimText st.input ≠ "") (hb : st.isBuilding = false) :
    renderedPercent p ≤ 100 ∧
    renderedPercent (progressTick p r) ≤ 100 ∧
    (90 ≤ p → progressTick p r = 90) ∧
    (p < 90 → p < progressTick p r ∧ progressTick p r < 103) ∧
    (handleSend bm cm o st).state.buildProgress = 0 ∧
    (handleSend bm cm o st).progressSets.getLast? = some 0 ∧
    ((100 : ℚ) ∈ (handleSend bm cm o st).progressSets ↔ o ≠ BuildFetchOutcome.threw) := by
  have hguard : ¬(trimText st.input = "" ∨ st.isBuilding = true) := by
    rintro (h | h)
    · exact hin h
    · rw [hb] at h; exact absurd h (by decide)
  refine ⟨min_le_right _ _, min_le_right _ _, ?_, ?_, ?_, ?_, ?_⟩
  · intro hp; simp [progressTick, hp]
  · intro hp
    rw [progressTick, if_neg (not_le.mpr hp)]
    constructor <;> linarith
  · simp only [handleSend, if_neg hguard]
    cases o <;> rfl
  · simp only [handleSend, if_neg hguard]
    cases o <;> rfl
  · simp only [handleSend, if_neg hguard]
    cases o <;> simp [List.mem_cons]

/-- C10 witness: the amended statement at a concrete tick and build run. -/
theorem c10_progress_witness :
    (handleSend "a" "b" (BuildFetchOutcome.ok ⟨1, 1⟩) ⟨[], "x", false, 0⟩).state.buildProgress = 0 :=
  (c10_progress_amended 50 (1 / 2) "a" "b" (BuildFetchOutcome.ok ⟨1, 1⟩)
    ⟨[], "x", false, 0⟩ (by norm_num) (by norm_num) (by decide) rfl).2.2.2.2.1

/-- C3: compile is deterministic — two runs of compile on the same
(Blueprint, Anchor) pair that both succeed produce identical
CompiledOperation sequences. -/
theorem c3_compile_deterministic (bp : Blueprint) (a : Anchor)
    (ops1 ops2 : List CompiledOperation)
    (h1 : compile bp a = Except.ok ops1) (h2 : compile bp a = Except.ok ops2) :
    ops1 = ops2 := by
  rw [h1] at h2
  exact Except.ok.inj h2

/-- C3 witness: the section 8 scenario of the spec compiles (to the single
expected FillOp), and two runs agree on it. -/
theorem c3_compile_deterministic_witness :
    compile scenarioBlueprint scenarioAnchor = Except.ok [scenarioOp] ∧
      ([scenarioOp] : List CompiledOperation) = [scenarioOp] :=
  ⟨rfl, c3_compile_deterministic scenarioBlueprint scenarioAnchor [scenarioOp] [scenarioOp] rfl rfl⟩

/-- C4: phase ordering of compiled output — a successful compile returns
exactly the phase-tagged sequence with its tags dropped; the phase tags are
monotone along the sequence (no phase-(k+1) operation precedes a phase-k
operation); and the operations of the phase at index k of build_order are
the lowering of the elements of that phase in Blueprint insertion order. -/
theorem c4_phase_ordering (bp : Blueprint) (a : Anchor) (ops : List CompiledOperation)
    (h : compile bp a = Except.ok ops) :
    ops = (phaseTagged bp a).map Prod.snd ∧
    (phaseTagged bp a).Pairwise (fun s t => s.1 ≤ t.1) ∧
    (∀ k ph, bp.build_order.get? k = some ph →
      ((phaseTagged bp a).filter fun t => t.1 == k).map Prod.snd =
        phaseOps a bp.elements ph) := by
  refine ⟨?_, tagPhases_pairwise a bp.elements bp.build_order 0, ?_⟩
  · rw [compile_ok_eq bp a ops h]
    unfold phaseTagged
    rw [tagPhases_map_snd]
    rfl
  · intro k ph hk
    have hfilter := tagPhases_filter_get a bp.elements bp.build_order 0 k ph hk
    simpa using hfilter

/-- C4 witness: phase-tag monotonicity on the compiled output of the
section 8 scenario. -/
theorem c4_phase_ordering_witness :
    (phaseTagged scenarioBlueprint scenarioAnchor).Pairwise (fun s t => s.1 ≤ t.1) :=
  (c4_phase_ordering scenarioBlueprint scenarioAnchor [scenarioOp] rfl).2.1

/-- C5: ingest rejects unknown phase tags — a raw blueprint with an element
whose phase tag is absent from build_order is rejected with
IngestError.UnknownPhase, and through the orchestrator no CompiledOperation
is ever produced from it (the scheduler trace is empty). -/
theorem c5_unknown_phase (raw : Blueprint) (h : hasUnknownPhase raw = true) :
    ingest raw = Except.error IngestError.UnknownPhase ∧
    (∀ oracle conn d a, oracle d = Except.ok raw →
      buildTrace oracle conn d a =
        (Except.error (OrchestrationError.IngestFailed IngestError.UnknownPhase), [])) := by
  have hing : ingest raw = Except.error IngestError.UnknownPhase := by
    simp [ingest, h]
  refine ⟨hing, ?_⟩
  intro oracle conn d a ho
  simp [buildTrace, ho, hing]

/-- C5 witness: the second section 8 scenario of the spec — phase tag "roof"
absent from build_order = ["walls"] — is rejected with UnknownPhase. -/
theorem c5_unknown_phase_witness :
    ingest badPhaseBlueprint = Except.error IngestError.UnknownPhase :=
  (c5_unknown_phase badPhaseBlueprint rfl).1

/-- C6: all-or-nothing pre-dispatch — whenever ingestion or compilation of
the blueprint of the oracle fails, the build fails fast with the originating
error wrapped, and the Dispatch Scheduler receives zero operations. -/
theorem c6_all_or_nothing (oracle : String → Except Unit Blueprint)
    (conn : CompiledOperation → Nat → SendOutcome) (d : String) (a : Anchor)
    (raw : Blueprint) (hor : oracle d = Except.ok raw) :
    (∀ e, ingest raw = Except.error e →
      buildTrace oracle conn d a = (Except.error (OrchestrationError.IngestFailed e), [])) ∧
    (∀ bp ce, ingest raw = Except.ok bp → compile bp a = Except.error ce →
      buildTrace oracle conn d a = (Except.error (OrchestrationError.CompileFailed ce), [])) := by
  constructor
  · intro e he
    simp [buildTrace, hor, he]
  · intro bp ce hi hc
    simp [buildTrace, hor, hi, hc]

/-- C6 witness: an oracle returning a zero-width blueprint makes the build
fail with the wrapped ingest error and dispatches nothing. -/
theorem c6_all_or_nothing_witness :
    buildTrace oracleBadDims connAllAck "a cabin" ⟨0, 64, 0⟩ =
      (Except.error (OrchestrationError.IngestFailed IngestError.InvalidDimensions), []) :=
  (c6_all_or_nothing oracleBadDims connAllAck "a cabin" ⟨0, 64, 0⟩ badDimsBlueprint rfl).1
    IngestError.InvalidDimensions rfl

/-- C7: retry exhaustion bound — against a connection that fails at the
transport level on the first three attempts and succeeds on the fourth, an
final DispatchRecord of an operation is acknowledged with attempt count 4. -/
theorem c7_retry_exhaustion (net : Nat → SendOutcome) (op : CompiledOperation)
    (h0 : net 0 = SendOutcome.transportFail) (h1 : net 1 = SendOutcome.transportFail)
    (h2 : net 2 = SendOutcome.transportFail) (h3 : net 3 = SendOutcome.ack) :
    (dispatchOp net op).status = Status.acknowledged ∧ (dispatchOp net op).attempts = 4 := by
  have hloop : retryLoop net 0 maxRetries = (Status.acknowledged, 4, none) := by
    simp [maxRetries, retryLoop, h0, h1, h2, h3]
  constructor <;> simp [dispatchOp, hloop]

/-- C7 witness: the retry bound at the concrete three-failures-then-ack
channel trace. -/
theorem c7_retry_exhaustion_witness :
    (dispatchOp net3fail scenarioOp).status = Status.acknowledged ∧
      (dispatchOp net3fail scenarioOp).attempts = 4 :=
  c7_retry_exhaustion net3fail scenarioOp rfl rfl rfl rfl
